import Mathlib

/-!
Verification of the load-aggregation core of `solar_calculator_app.py`
(Visulity/commercial-solar-calculator).

Numbers are modelled by `ℚ`: the Python code computes with unbounded
integers and exact decimal literals combined by `+`, `*`, `/`; every
value reached in the claims is exactly representable. Python's `/` on a
zero divisor raises `ZeroDivisionError`, so the demand query is embedded
as an `Except`. Python functions with no `return` statement return
`None`; this is made explicit where a claim is about the return value.
-/

/-- One entry of `SolarDemandCalculator.loads`: the dictionary built by
`add_load` (source lines 67–73). -/
structure Load where
  description : String
  power_w : ℚ
  quantity : ℚ
  hours_per_day : ℚ
  daily_energy_wh : ℚ
  deriving Repr, DecidableEq

/-- The mutable state of a `SolarDemandCalculator` instance:
`self.system_voltage` and `self.loads` (source lines 62–64). -/
structure SolarDemandCalculator where
  system_voltage : ℚ
  loads : List Load
  deriving Repr, DecidableEq

namespace SolarDemandCalculator

/-- Constructor `__init__(self, system_voltage=48)` (source lines 62–64): stores the
voltage unchecked and starts with an empty load list. -/
def init (system_voltage : ℚ := 48) : SolarDemandCalculator :=
  { system_voltage := system_voltage, loads := [] }

/-- The value of the Python expression returned by a method call: either
`None` (a method body with no `return` statement) or an index. -/
inductive PyRet where
  | none : PyRet
  | index : Nat → PyRet
  deriving Repr, DecidableEq

/-- Method `add_load(self, description, power_w, quantity, hours_per_day)`
(source lines 66–73): unconditionally appends the load dictionary, with
`daily_energy_wh = power_w * quantity * hours_per_day`, and falls off
the end of the body, so the call returns `None`. The pair is the updated
state together with that return value. -/
def add_load (c : SolarDemandCalculator) (description : String)
    (power_w quantity hours_per_day : ℚ) :
    SolarDemandCalculator × PyRet :=
  ({ c with
      loads := c.loads ++
        [{ description := description
           power_w := power_w
           quantity := quantity
           hours_per_day := hours_per_day
           daily_energy_wh := power_w * quantity * hours_per_day }] },
   PyRet.none)

/-- The state after `add_load` (the caller in `main` ignores the return
value). -/
def addLoad (c : SolarDemandCalculator) (description : String)
    (power_w quantity hours_per_day : ℚ) : SolarDemandCalculator :=
  (c.add_load description power_w quantity hours_per_day).1

/-- The dictionary returned by `calculate_demand` (source lines 77–82
and 87–92). -/
structure Demand where
  total_energy_wh : ℚ
  total_energy_kwh : ℚ
  total_ah : ℚ
  peak_power_w : ℚ
  deriving Repr, DecidableEq

instance {ε α : Type} [DecidableEq ε] [DecidableEq α] :
    DecidableEq (Except ε α) := fun a b =>
  match a, b with
  | .ok a, .ok b =>
      if h : a = b then .isTrue (by rw [h]) else .isFalse (by simp [h])
  | .error a, .error b =>
      if h : a = b then .isTrue (by rw [h]) else .isFalse (by simp [h])
  | .ok _, .error _ => .isFalse (by simp)
  | .error _, .ok _ => .isFalse (by simp)

/-- Method `calculate_demand(self)` (source lines 75–92). An empty `self.loads`
takes the early-return branch with all four fields zero, touching
neither sum nor `self.system_voltage`. Otherwise the two sums are taken
and the divisions performed; Python's `/` raises `ZeroDivisionError`
when `self.system_voltage` is zero, hence the `Except`. -/
def calculate_demand (c : SolarDemandCalculator) : Except String Demand :=
  if c.loads = [] then
    .ok { total_energy_wh := 0, total_energy_kwh := 0
          total_ah := 0, peak_power_w := 0 }
  else
    let total_energy_wh := (c.loads.map Load.daily_energy_wh).sum
    let peak_power_w := (c.loads.map (fun l => l.power_w * l.quantity)).sum
    if c.system_voltage = 0 then
      .error "ZeroDivisionError"
    else
      .ok { total_energy_wh := total_energy_wh
            total_energy_kwh := total_energy_wh / 1000
            total_ah := total_energy_wh / c.system_voltage
            peak_power_w := peak_power_w }

/-- The deletion performed by the per-load delete button in `main`
(source line 185): `st.session_state.calculator.loads.pop(i)` with `i`
an `enumerate` position. Python's `list.pop(i)` removes and returns the
element at position `i`, shifting later elements down, and raises
`IndexError` when `i` is not a position of the current list, leaving it
unchanged. -/
def removeLoad (c : SolarDemandCalculator) (i : Nat) :
    Except String SolarDemandCalculator :=
  if i < c.loads.length then
    .ok { c with loads := c.loads.eraseIdx i }
  else
    .error "pop index out of range"

/-- The reset performed by the Clear-All button in `main` (source line
229): `st.session_state.calculator.loads = []`. -/
def clearLoads (c : SolarDemandCalculator) : SolarDemandCalculator :=
  { c with loads := [] }

end SolarDemandCalculator

open SolarDemandCalculator

/-- A user interaction that mutates the registry: the Add-Load button,
a delete button, or the Clear-All button of `main`. -/
inductive RegistryOp where
  | add : String → ℚ → ℚ → ℚ → RegistryOp
  | remove : Nat → RegistryOp
  | clear : RegistryOp

/-- Apply one interaction to the calculator state. A `remove` whose
index is out of range raises in Python before any mutation, so the state
is unchanged. -/
def applyOp (c : SolarDemandCalculator) : RegistryOp → SolarDemandCalculator
  | RegistryOp.add d p q h => c.addLoad d p q h
  | RegistryOp.remove i =>
      match c.removeLoad i with
      | .ok c' => c'
      | .error _ => c
  | RegistryOp.clear => c.clearLoads

/-- Run a sequence of interactions from a starting state. -/
def runOps (c : SolarDemandCalculator) : List RegistryOp → SolarDemandCalculator
  | [] => c
  | op :: ops => runOps (applyOp c op) ops

/-- The per-load cache consistency property of the spec's data model:
`daily_energy_wh = power_w × quantity × hours_per_day`. -/
def Load.consistent (l : Load) : Prop :=
  l.daily_energy_wh = l.power_w * l.quantity * l.hours_per_day

instance (l : Load) : Decidable l.consistent := by
  unfold Load.consistent; infer_instance

/-- Sizing, as computed inline in `main` (source lines 220, 243, 244):
`pv_size = total_energy_kwh / 4.5`, battery bank
`total_energy_kwh * 2`, inverter `peak_power_w / 1000 * 1.2`. -/
structure Sizing where
  pv_size_kw : ℚ
  battery_capacity_kwh : ℚ
  inverter_kw : ℚ
  deriving Repr, DecidableEq

def sizingOf (d : SolarDemandCalculator.Demand) : Sizing :=
  { pv_size_kw := d.total_energy_kwh / (45/10)
    battery_capacity_kwh := d.total_energy_kwh * 2
    inverter_kw := d.peak_power_w / 1000 * (12/10) }

/-- Costs, as computed inline in `main` (source lines 248–252):
`equipment_cost = pv_size * 1200 + (total_energy_kwh * 2) * 600`,
installation shown as `equipment_cost * 0.3`, and
`total_cost = equipment_cost * 1.3`. -/
structure Costs where
  equipment_cost : ℚ
  installation_cost : ℚ
  total_cost : ℚ
  deriving Repr, DecidableEq

def costsOf (s : Sizing) : Costs :=
  { equipment_cost := s.pv_size_kw * 1200 + s.battery_capacity_kwh * 600
    installation_cost := (s.pv_size_kw * 1200 + s.battery_capacity_kwh * 600) * (3/10)
    total_cost := (s.pv_size_kw * 1200 + s.battery_capacity_kwh * 600) * (13/10) }

/-!
`main` manipulates the load list through Python references:
`st.session_state.loads = st.session_state.calculator.loads` (source
lines 150, 186, 277) binds a second name to the very same list object,
not to a copy. To reason about this aliasing, the list object is placed
on an explicit heap and attribute access yields its address.
-/

/-- Address of a Python list object on the heap. -/
abbrev Addr := Nat

/-- A heap of Python list objects (only load lists occur here). -/
structure PyHeap where
  cells : List (List Load)
  deriving Repr, DecidableEq

/-- Read the list object at an address. -/
def PyHeap.deref (h : PyHeap) (a : Addr) : List Load :=
  h.cells.getD a []

/-- Overwrite the list object at an address (in-place mutation). -/
def PyHeap.write (h : PyHeap) (a : Addr) (v : List Load) : PyHeap :=
  ⟨h.cells.set a v⟩

/-- Python `lst.append(x)` performed through a reference `a` held by whoever
obtained the list. -/
def PyHeap.appendAt (h : PyHeap) (a : Addr) (l : Load) : PyHeap :=
  h.write a (h.deref a ++ [l])

/-- A `SolarDemandCalculator` instance whose `loads` attribute holds a
reference to a heap cell, as Python objects do. -/
structure CalculatorRef where
  system_voltage : ℚ
  loadsAddr : Addr
  deriving Repr, DecidableEq

namespace CalculatorRef

/-- Constructor `__init__` under the heap model: `self.loads = []` allocates a fresh
empty list object and stores its address in the attribute. -/
def init (h : PyHeap) (system_voltage : ℚ := 48) : PyHeap × CalculatorRef :=
  (⟨h.cells ++ [[]]⟩, ⟨system_voltage, h.cells.length⟩)

/-- The attribute access `calculator.loads` as `main` performs it
(source line 150): it evaluates to the reference stored in the
attribute — the address of the internal list object — not to a copy. -/
def getLoads (c : CalculatorRef) : Addr :=
  c.loadsAddr

/-- Query `calculate_demand` under the heap model: `self.loads` is read
through the stored reference, then lines 75–92 run as before. -/
def calculate_demand (h : PyHeap) (c : CalculatorRef) :
    Except String SolarDemandCalculator.Demand :=
  SolarDemandCalculator.calculate_demand
    { system_voltage := c.system_voltage, loads := h.deref c.loadsAddr }

end CalculatorRef

/-- C1 counterexample: the concrete call `add_load("", 0, 0, 25)` —
invalid on every one of the spec's four constraints — completes and
grows the registry from zero loads to one, so the collection is not
"exactly the same after the failed call as before it". -/
theorem add_load_invalid_input_mutates_cex :
    ((SolarDemandCalculator.init 48).add_load "" 0 0 25).1.loads ≠
      (SolarDemandCalculator.init 48).loads ∧
    ((SolarDemandCalculator.init 48).add_load "" 0 0 25).1.loads.length = 1 := by
  decide

/-- C1 amended: `add_load` performs no validation at all — for every
input, valid or invalid, it appends the load (with
`daily_energy_wh = power_w * quantity * hours_per_day`) to the end of
the collection, leaves `system_voltage` unchanged, and never fails. -/
theorem add_load_always_appends (c : SolarDemandCalculator)
    (d : String) (p q hrs : ℚ) :
    (c.add_load d p q hrs).1.loads =
      c.loads ++ [{ description := d, power_w := p, quantity := q
                    hours_per_day := hrs, daily_energy_wh := p * q * hrs }] ∧
    (c.add_load d p q hrs).1.system_voltage = c.system_voltage := by
  exact ⟨rfl, rfl⟩

/-- A calculator built at `system_voltage = 0` holding one load: the
construction is accepted unchecked. -/
def zvCalc : SolarDemandCalculator :=
  ((SolarDemandCalculator.init 0).add_load "Fan" 100 1 5).1

/-- C2 counterexample: `SolarDemandCalculator(0)` is accepted at
construction (no rejection), and after one `add_load` the demand query
performs `total_energy_wh / 0`, raising `ZeroDivisionError` — a
division by zero at query time. -/
theorem zero_voltage_divzero_cex :
    zvCalc.system_voltage = 0 ∧
    zvCalc.calculate_demand = .error "ZeroDivisionError" := by
  constructor
  · rfl
  · rfl

/-- C2 amended: neither `__init__` nor `calculate_demand` validates
`system_voltage`; any value (0 included) is stored as-is, and the
demand query raises `ZeroDivisionError` exactly when the load
collection is nonempty and `system_voltage = 0`. -/
theorem calculate_demand_error_iff (c : SolarDemandCalculator) :
    c.calculate_demand = .error "ZeroDivisionError" ↔
      c.loads ≠ [] ∧ c.system_voltage = 0 := by
  unfold SolarDemandCalculator.calculate_demand
  by_cases hl : c.loads = [] <;> by_cases hv : c.system_voltage = 0 <;>
    simp [hl, hv]

/-- C6: on a registry with no loads, `calculate_demand` takes the
early-return branch and yields the all-zero demand without raising, at
every system voltage. -/
theorem calculate_demand_empty_registry (v : ℚ) :
    SolarDemandCalculator.calculate_demand { system_voltage := v, loads := [] } =
      .ok { total_energy_wh := 0, total_energy_kwh := 0
            total_ah := 0, peak_power_w := 0 } := by
  rfl

/-- C10: with an empty load collection the demand query's result does
not depend on `system_voltage` at all (the early branch never reads
it), and in particular it succeeds with the all-zero demand even when
the calculator was constructed with `system_voltage = 0`. -/
theorem calculate_demand_empty_ignores_voltage (v w : ℚ) :
    SolarDemandCalculator.calculate_demand { system_voltage := v, loads := [] } =
      SolarDemandCalculator.calculate_demand { system_voltage := w, loads := [] } ∧
    SolarDemandCalculator.calculate_demand { system_voltage := 0, loads := [] } =
      .ok { total_energy_wh := 0, total_energy_kwh := 0
            total_ah := 0, peak_power_w := 0 } := by
  exact ⟨rfl, rfl⟩

/-- C9 counterexample: on an empty registry the claim demands that
`add_load` return position `0`; the concrete call returns `None`
(the method body has no `return` statement). -/
theorem add_load_return_value_cex :
    ((SolarDemandCalculator.init 48).add_load "LED Light" 20 15 10).2 =
      SolarDemandCalculator.PyRet.none ∧
    SolarDemandCalculator.PyRet.none ≠ SolarDemandCalculator.PyRet.index 0 := by
  decide

/-- C9 amended: a call to `add_load` does append the new load at the end
of the ordered collection — the new entry sits at the position equal to
the collection's length before the call, and the length grows by one —
but the method returns `None`, not that position. -/
theorem add_load_appends_returns_none (c : SolarDemandCalculator)
    (d : String) (p q hrs : ℚ) :
    (c.add_load d p q hrs).2 = SolarDemandCalculator.PyRet.none ∧
    (c.add_load d p q hrs).1.loads[c.loads.length]? =
      some { description := d, power_w := p, quantity := q
             hours_per_day := hrs, daily_energy_wh := p * q * hrs } ∧
    (c.add_load d p q hrs).1.loads.length = c.loads.length + 1 := by
  refine ⟨rfl, ?_, ?_⟩
  · simp [SolarDemandCalculator.add_load]
  · simp [SolarDemandCalculator.add_load]

/-- C3: for every load collection and positive system voltage,
`calculate_demand` succeeds and returns exactly the sums of the spec:
total energy is the sum of the stored `daily_energy_wh`, kWh is that
sum over 1000, Ah is that sum over the voltage, and peak power is the
sum of `power_w * quantity` (so it never consults `hours_per_day`);
the empty collection gives the all-zero record, matching the sums. -/
theorem calculate_demand_eq_sums (v : ℚ) (loads : List Load) (hv : 0 < v) :
    SolarDemandCalculator.calculate_demand { system_voltage := v, loads := loads } =
      .ok { total_energy_wh := (loads.map Load.daily_energy_wh).sum
            total_energy_kwh := (loads.map Load.daily_energy_wh).sum / 1000
            total_ah := (loads.map Load.daily_energy_wh).sum / v
            peak_power_w := (loads.map fun l => l.power_w * l.quantity).sum } := by
  unfold SolarDemandCalculator.calculate_demand
  rcases eq_or_ne loads [] with h | h
  · subst h; simp
  · simp [h, hv.ne']

/-- A concrete consistent load used to instantiate theorems. -/
def fanLoad : Load :=
  { description := "Fan", power_w := 100, quantity := 2
    hours_per_day := 5, daily_energy_wh := 1000 }

/-- C3 witness: the sum formula instantiated at voltage 48 and the
single-load collection `[fanLoad]`, the positivity hypothesis
discharged numerically. -/
theorem calculate_demand_eq_sums_witness :
    SolarDemandCalculator.calculate_demand { system_voltage := 48, loads := [fanLoad] } =
      .ok { total_energy_wh := ([fanLoad].map Load.daily_energy_wh).sum
            total_energy_kwh := ([fanLoad].map Load.daily_energy_wh).sum / 1000
            total_ah := ([fanLoad].map Load.daily_energy_wh).sum / 48
            peak_power_w := ([fanLoad].map fun l => l.power_w * l.quantity).sum } :=
  calculate_demand_eq_sums 48 [fanLoad] (by norm_num)

/-- The Small-Office quick-start state of `main` (source lines 273–276):
three loads added to a default 48 V calculator. -/
def smallOffice : SolarDemandCalculator :=
  (((SolarDemandCalculator.init 48).addLoad "LED Light" 20 15 10).addLoad
      "Computer" 150 5 8).addLoad "AC Unit" 1500 1 6

/-- C4: the three-load scenario at 48 V gives
`total_energy_wh = 18000`, `total_energy_kwh = 18`, `total_ah = 375`,
`peak_power_w = 2550`; the sizing computed in `main` is
`pv_size_kw = 4`, `battery_capacity_kwh = 36`,
`inverter_kw = 3.06 = 153/50`; and the costs are
`equipment_cost = 26400`, `installation_cost = 7920`,
`total_cost = 34320`. -/
theorem small_office_scenario :
    smallOffice.calculate_demand =
      .ok { total_energy_wh := 18000, total_energy_kwh := 18
            total_ah := 375, peak_power_w := 2550 } ∧
    sizingOf { total_energy_wh := 18000, total_energy_kwh := 18
               total_ah := 375, peak_power_w := 2550 } =
      { pv_size_kw := 4, battery_capacity_kwh := 36, inverter_kw := 153/50 } ∧
    costsOf { pv_size_kw := 4, battery_capacity_kwh := 36, inverter_kw := 153/50 } =
      { equipment_cost := 26400, installation_cost := 7920, total_cost := 34320 } := by
  refine ⟨?_, ?_, ?_⟩
  · norm_num [smallOffice, SolarDemandCalculator.addLoad,
      SolarDemandCalculator.add_load, SolarDemandCalculator.init,
      SolarDemandCalculator.calculate_demand]
    exact List.cons_ne_nil _ _
  · unfold sizingOf; norm_num
  · unfold costsOf; norm_num

/-- Every load stored in `c` satisfies the cache-consistency invariant;
it is preserved by every sequence of add/remove/clear interactions,
since `add_load` computes `daily_energy_wh` at creation and the other
operations only drop entries. -/
theorem runOps_consistent (c : SolarDemandCalculator)
    (h : ∀ l ∈ c.loads, l.consistent) (ops : List RegistryOp) :
    ∀ l ∈ (runOps c ops).loads, l.consistent := by
  induction ops generalizing c with
  | nil => exact h
  | cons op ops ih =>
    refine ih _ ?_
    intro l hl
    cases op with
    | add d p q hrs =>
      simp only [applyOp, addLoad, SolarDemandCalculator.add_load,
        List.mem_append, List.mem_singleton] at hl
      rcases hl with hl | hl
      · exact h l hl
      · subst hl; rfl
    | remove i =>
      by_cases hi : i < c.loads.length
      · simp only [applyOp, SolarDemandCalculator.removeLoad, if_pos hi] at hl
        exact h l (List.mem_of_mem_eraseIdx hl)
      · simp only [applyOp, SolarDemandCalculator.removeLoad, if_neg hi] at hl
        exact h l hl
    | clear =>
      simp [applyOp, SolarDemandCalculator.clearLoads] at hl

/-- C5: after every sequence of add, remove, and clear interactions
starting from a freshly constructed calculator, every stored load has
`daily_energy_wh = power_w * quantity * hours_per_day` exactly — the
field is computed at creation and never mutated afterwards. -/
theorem daily_energy_invariant (v : ℚ) (ops : List RegistryOp) (l : Load)
    (hl : l ∈ (runOps (SolarDemandCalculator.init v) ops).loads) :
    l.daily_energy_wh = l.power_w * l.quantity * l.hours_per_day :=
  runOps_consistent (SolarDemandCalculator.init v) (by simp [SolarDemandCalculator.init]) ops l hl

/-- C5 witness: after adding two loads and removing the first, the
surviving stored load satisfies the invariant; the membership
hypothesis is discharged by evaluation. -/
theorem daily_energy_invariant_witness :
    ({ description := "B", power_w := 5, quantity := 6
       hours_per_day := 7, daily_energy_wh := 210 } : Load).daily_energy_wh =
      (5 : ℚ) * 6 * 7 :=
  daily_energy_invariant 48
    [RegistryOp.add "A" 2 3 4, RegistryOp.add "B" 5 6 7, RegistryOp.remove 0]
    { description := "B", power_w := 5, quantity := 6
      hours_per_day := 7, daily_energy_wh := 210 }
    (by
      have h : (runOps (SolarDemandCalculator.init 48)
          [RegistryOp.add "A" 2 3 4, RegistryOp.add "B" 5 6 7,
           RegistryOp.remove 0]).loads =
          [{ description := "B", power_w := 5, quantity := 6
             hours_per_day := 7, daily_energy_wh := 210 }] := by
        norm_num [runOps, applyOp, SolarDemandCalculator.addLoad,
          SolarDemandCalculator.add_load, SolarDemandCalculator.init,
          SolarDemandCalculator.removeLoad, List.eraseIdx]
      rw [h]
      exact List.mem_singleton_self _)

/-- C7: `loads.pop(i)` fails with an index error on every position that
is not a current position, and then the interaction leaves the
calculator unchanged; on a valid position it succeeds, keeping the
voltage, shrinking the length by one, leaving every entry below `i` in
place and shifting every entry above `i` down by exactly one. -/
theorem removeLoad_spec (c : SolarDemandCalculator) (i : Nat) :
    (c.loads.length ≤ i →
      c.removeLoad i = .error "pop index out of range" ∧
      applyOp c (RegistryOp.remove i) = c) ∧
    (i < c.loads.length →
      ∃ c', c.removeLoad i = .ok c' ∧
        c'.system_voltage = c.system_voltage ∧
        c'.loads.length + 1 = c.loads.length ∧
        (∀ j, j < i → c'.loads[j]? = c.loads[j]?) ∧
        (∀ j, i ≤ j → c'.loads[j]? = c.loads[j + 1]?)) := by
  constructor
  · intro h
    have herr : c.removeLoad i = .error "pop index out of range" := by
      unfold SolarDemandCalculator.removeLoad
      rw [if_neg (by omega)]
    exact ⟨herr, by simp [applyOp, herr]⟩
  · intro h
    refine ⟨{ c with loads := c.loads.eraseIdx i }, ?_, rfl, ?_, ?_, ?_⟩
    · unfold SolarDemandCalculator.removeLoad
      rw [if_pos h]
    · have := List.length_eraseIdx_of_lt h
      simp only [this]
      omega
    · intro j hj
      exact List.getElem?_eraseIdx_of_lt _ _ _ hj
    · intro j hj
      exact List.getElem?_eraseIdx_of_ge _ _ _ hj

/-- C7 witness: on the three-load Small-Office registry, popping
position 5 fails while popping position 1 removes the middle load with
the positional shift; both hypotheses are discharged by evaluation. -/
theorem removeLoad_spec_witness :
    (smallOffice.removeLoad 5 = .error "pop index out of range" ∧
      applyOp smallOffice (RegistryOp.remove 5) = smallOffice) ∧
    (∃ c', smallOffice.removeLoad 1 = .ok c' ∧
      c'.system_voltage = smallOffice.system_voltage ∧
      c'.loads.length + 1 = smallOffice.loads.length ∧
      (∀ j, j < 1 → c'.loads[j]? = smallOffice.loads[j]?) ∧
      (∀ j, 1 ≤ j → c'.loads[j]? = smallOffice.loads[j + 1]?)) :=
  ⟨(removeLoad_spec smallOffice 5).1 (by decide),
   (removeLoad_spec smallOffice 1).2 (by decide)⟩

/-- C8 counterexample: on a fresh calculator the loads attribute hands
out the address of the internal list object itself; appending one load
through that returned reference changes the registry's subsequent
demand computation from the all-zero record to a nonzero one — the
returned sequence is not a snapshot. -/
theorem list_aliasing_cex :
    CalculatorRef.calculate_demand (CalculatorRef.init ⟨[]⟩ 48).1
        (CalculatorRef.init ⟨[]⟩ 48).2 =
      .ok { total_energy_wh := 0, total_energy_kwh := 0
            total_ah := 0, peak_power_w := 0 } ∧
    CalculatorRef.calculate_demand
        ((CalculatorRef.init ⟨[]⟩ 48).1.appendAt
          ((CalculatorRef.init ⟨[]⟩ 48).2.getLoads)
          { description := "LED Light", power_w := 20, quantity := 15
            hours_per_day := 10, daily_energy_wh := 3000 })
        (CalculatorRef.init ⟨[]⟩ 48).2 =
      .ok { total_energy_wh := 3000, total_energy_kwh := 3
            total_ah := 125/2, peak_power_w := 300 } ∧
    ({ total_energy_wh := 3000, total_energy_kwh := 3
       total_ah := 125/2, peak_power_w := 300 } : SolarDemandCalculator.Demand) ≠
      { total_energy_wh := 0, total_energy_kwh := 0
        total_ah := 0, peak_power_w := 0 } := by
  refine ⟨rfl, ?_, by norm_num⟩
  norm_num [CalculatorRef.calculate_demand, CalculatorRef.init,
    CalculatorRef.getLoads, PyHeap.appendAt, PyHeap.write, PyHeap.deref,
    SolarDemandCalculator.calculate_demand]

/-- C8 amended: the loads attribute preserves insertion order but is a
live alias, not a snapshot — it returns the very address of the
internal list object, so appending through the returned reference
rewrites the registry's own collection, and a subsequent demand query
reads the mutated collection. -/
theorem getLoads_live_alias (H : PyHeap) (c : CalculatorRef) (l : Load)
    (hv : c.loadsAddr < H.cells.length) :
    c.getLoads = c.loadsAddr ∧
    (H.appendAt c.getLoads l).deref c.loadsAddr = H.deref c.loadsAddr ++ [l] ∧
    CalculatorRef.calculate_demand (H.appendAt c.getLoads l) c =
      SolarDemandCalculator.calculate_demand
        { system_voltage := c.system_voltage
          loads := H.deref c.loadsAddr ++ [l] } := by
  have hd : (H.appendAt c.getLoads l).deref c.loadsAddr =
      H.deref c.loadsAddr ++ [l] := by
    simp [PyHeap.appendAt, PyHeap.write, PyHeap.deref, CalculatorRef.getLoads,
      List.getElem?_set_self hv]
  refine ⟨rfl, hd, ?_⟩
  unfold CalculatorRef.calculate_demand
  rw [hd]

/-- C8 amended witness: the live-alias theorem instantiated on a
one-cell heap holding the fresh calculator's empty list, the
address-validity hypothesis discharged by evaluation. -/
theorem getLoads_live_alias_witness :
    (⟨48, 0⟩ : CalculatorRef).getLoads = 0 ∧
    ((⟨[[]]⟩ : PyHeap).appendAt ((⟨48, 0⟩ : CalculatorRef).getLoads) fanLoad).deref 0 =
      (⟨[[]]⟩ : PyHeap).deref 0 ++ [fanLoad] ∧
    CalculatorRef.calculate_demand
        ((⟨[[]]⟩ : PyHeap).appendAt ((⟨48, 0⟩ : CalculatorRef).getLoads) fanLoad)
        ⟨48, 0⟩ =
      SolarDemandCalculator.calculate_demand
        { system_voltage := 48, loads := (⟨[[]]⟩ : PyHeap).deref 0 ++ [fanLoad] } :=
  getLoads_live_alias ⟨[[]]⟩ ⟨48, 0⟩ fanLoad (by decide)
